import Mathlib

/-!
Verification of the client CRUD service (`src/routes/clients.py`,
`src/repository/clients.py`, `src/database/models.py`): a shallow embedding
of the data model, the repository layer and the route handlers, followed by
theorems about role gating, the birthday-window query, create/update/delete
semantics, default query parameters and rate limiting.
-/

set_option maxRecDepth 4000

namespace ClientsApp

/-- Calendar date, as Python's `datetime.date`: a year, month and day. -/
structure MyDate where
  year : Int
  month : Nat
  day : Nat
deriving DecidableEq, Repr

/-- Days since 1970-01-01 of a civil date (Howard Hinnant's `days_from_civil`,
the same arithmetic Python's `datetime.date.toordinal` is based on, shifted to
the Unix epoch).  Used only to mirror `timedelta` addition. -/
def daysFromCivil (d : MyDate) : Int :=
  let y : Int := if d.month ≤ 2 then d.year - 1 else d.year
  let era : Int := (if 0 ≤ y then y else y - 399).tdiv 400
  let yoe : Int := y - era * 400
  let mp : Int := if d.month > 2 then (d.month : Int) - 3 else (d.month : Int) + 9
  let doy : Int := (153 * mp + 2).tdiv 5 + (d.day : Int) - 1
  let doe : Int := yoe * 365 + yoe.tdiv 4 - yoe.tdiv 100 + doy
  era * 146097 + doe - 719468

/-- Civil date of a days-since-epoch count (Hinnant's `civil_from_days`). -/
def civilFromDays (z0 : Int) : MyDate :=
  let z : Int := z0 + 719468
  let era : Int := (if 0 ≤ z then z else z - 146096).tdiv 146097
  let doe : Int := z - era * 146097
  let yoe : Int := (doe - doe.tdiv 1460 + doe.tdiv 36524 - doe.tdiv 146096).tdiv 365
  let y : Int := yoe + era * 400
  let doy : Int := doe - (365 * yoe + yoe.tdiv 4 - yoe.tdiv 100)
  let mp : Int := (5 * doy + 2).tdiv 153
  let d : Int := doy - (153 * mp + 2).tdiv 5 + 1
  let m : Int := if mp < 10 then mp + 3 else mp - 9
  { year := if m ≤ 2 then y + 1 else y, month := m.toNat, day := d.toNat }

/-- `d + timedelta(days = n)` of Python: exact calendar-day addition. -/
def addDays (d : MyDate) (n : Int) : MyDate :=
  civilFromDays (daysFromCivil d + n)

/-- The closed role set of `models.Role`: admin, moderator, user. -/
inductive Role
  | admin
  | moderator
  | user
deriving DecidableEq, Repr

/-- A stored client row (`models.Client`): serial primary key, the six
payload fields, and the two server-assigned timestamps (modelled as abstract
clock ticks). -/
structure ClientRec where
  id : Int
  first_name : String
  last_name : String
  email : String
  mobile : String
  birthday : MyDate
  add_info : String
  created_at : Nat
  updated_at : Nat
deriving DecidableEq, Repr

/-- The request payload (`schemas.ClientModel`): all six mutable fields. -/
structure ClientModel where
  first_name : String
  last_name : String
  email : String
  mobile : String
  birthday : MyDate
  add_info : String
deriving DecidableEq, Repr

/-- The clients table, in the store's natural order. -/
abbrev Store := List ClientRec

/-- `models.Client.email = Column(String, unique=True, index=True)`: the model
declares a unique constraint on the client email column. -/
def clientEmailUniqueConstraint : Bool := true

/-- `models.User.email = Column(String(150), nullable=False, unique=True)`. -/
def userEmailUniqueConstraint : Bool := true

/-- The error outcomes the routes can surface, per §7 of the spec; `storeFailure`
is the generic propagation of an unhandled database error (e.g. a unique
constraint violation raised by `db.commit()`). -/
inductive ApiErr
  | forbidden
  | throttled
  | notFound
  | conflict
  | validation
  | storeFailure
deriving DecidableEq, Repr

/-- One database error kind matters here: a unique-constraint violation at
commit time. -/
inductive StoreErr
  | uniqueViolation
deriving DecidableEq, Repr

/-- Result of one route invocation: the HTTP outcome (success status code and
payload, or an error), the store after the call, and whether the store was
touched at all. -/
structure Outcome (α : Type) where
  result : Except ApiErr (Nat × α)
  store : Store
  storeAccessed : Bool
deriving Repr

/-! ## Repository layer (`src/repository/clients.py`) -/

/-- `get_clients`: `db.query(Client).all()`. -/
def get_clients (db : Store) : List ClientRec := db

/-- `get_client_by_id`: `db.query(Client).filter_by(id=client_id).first()`. -/
def get_client_by_id (client_id : Int) (db : Store) : Option ClientRec :=
  db.find? (fun c => c.id == client_id)

/-- `get_client_by_email`: `db.query(Client).filter_by(email=email).first()`. -/
def get_client_by_email (email : String) (db : Store) : Option ClientRec :=
  db.find? (fun c => c.email == email)

/-- The id the store assigns to a freshly inserted row (serial primary key:
one more than the largest id present). -/
def nextId (db : Store) : Int :=
  (db.map (fun c => c.id)).foldr max 0 + 1

/-- The row `Client(**body.dict())` inserted by `create`, with the
server-assigned id and `func.now()` defaults for both timestamps. -/
def newClient (body : ClientModel) (db : Store) (now : Nat) : ClientRec :=
  { id := nextId db
    first_name := body.first_name
    last_name := body.last_name
    email := body.email
    mobile := body.mobile
    birthday := body.birthday
    add_info := body.add_info
    created_at := now
    updated_at := now }

/-- `create`: add the row and commit.  The commit enforces the unique
constraint on `Client.email`: if a stored row already has the payload email it
raises, leaving the store unchanged. -/
def create (body : ClientModel) (db : Store) (now : Nat) :
    Except StoreErr (ClientRec × Store) :=
  if db.any (fun c => c.email == body.email) then
    .error .uniqueViolation
  else
    let c := newClient body db now
    .ok (c, db ++ [c])

/-- Overwrite the six mutable fields with the payload; `updated_at` is
refreshed by the column's `onupdate=func.now()`. -/
def setFields (body : ClientModel) (now : Nat) (c : ClientRec) : ClientRec :=
  { c with
    first_name := body.first_name
    last_name := body.last_name
    email := body.email
    mobile := body.mobile
    birthday := body.birthday
    add_info := body.add_info
    updated_at := now }

/-- Replace the first row with the given id (the single ORM object
`get_client_by_id` returned and `update` mutated). -/
def replaceById (client_id : Int) (f : ClientRec → ClientRec) : Store → Store
  | [] => []
  | c :: rest =>
      if c.id == client_id then f c :: rest
      else c :: replaceById client_id f rest

/-- `update`: look the row up by id; if absent return `None` without writing;
otherwise assign all six fields and commit.  The commit enforces the unique
email constraint against every other row; a violation raises and persists
nothing. -/
def update (client_id : Int) (body : ClientModel) (db : Store) (now : Nat) :
    Except StoreErr (Option ClientRec × Store) :=
  match get_client_by_id client_id db with
  | none => .ok (none, db)
  | some c =>
      if db.any (fun c2 => c2.id != client_id && c2.email == body.email) then
        .error .uniqueViolation
      else
        .ok (some (setFields body now c), replaceById client_id (setFields body now) db)

/-- `remove`: look the row up by id; if absent return `None` with no effect;
otherwise delete that row and commit, returning its last known values. -/
def remove (client_id : Int) (db : Store) : Option ClientRec × Store :=
  match get_client_by_id client_id db with
  | none => (none, db)
  | some c => (some c, db.eraseP (fun x => x.id == client_id))

/-! ## Access gate and rate limiter -/

/-- Modelled from the spec: `src/services/roles.py` (the `RoleAccess`
dependency class) is not part of the sources; §4.1 specifies
`authorize(callerRole, allowedRoles) -> Permit | Deny` as pure membership of
the caller's role in the operation's fixed allowed set, surfaced as Forbidden
on Deny. -/
def roleAccess (allowed : List Role) (r : Role) : Bool :=
  allowed.contains r

/-- `allowed_operation_get = RoleAccess([Role.admin, Role.moderator, Role.user])`. -/
def allowed_operation_get : List Role := [Role.admin, Role.moderator, Role.user]

/-- `allowed_operation_create = RoleAccess([Role.admin, Role.moderator, Role.user])`. -/
def allowed_operation_create : List Role := [Role.admin, Role.moderator, Role.user]

/-- `allowed_operation_update = RoleAccess([Role.admin, Role.moderator])`. -/
def allowed_operation_update : List Role := [Role.admin, Role.moderator]

/-- `allowed_operation_remove = RoleAccess([Role.admin])`. -/
def allowed_operation_remove : List Role := [Role.admin]

/-- `RateLimiter(times=2, seconds=5)` on the list route. -/
def rateLimiterTimes : Nat := 2

/-- The window length of the list route's rate limiter, in seconds. -/
def rateLimiterSeconds : Nat := 5

/-- Modelled from the spec: the rate limiter is the external
`fastapi_limiter` collaborator; §6 gives its contract
`checkAndConsume(callerKey, limit=2, windowSeconds=5) -> Allowed | Throttled`.
Given the caller's number of calls already admitted in the current 5-second
window, the next call is allowed exactly when that count is below the limit. -/
def rateLimiterAllows (callsInWindow : Nat) : Bool :=
  callsInWindow < rateLimiterTimes

/-! ## Route handlers (`src/routes/clients.py`)

Each handler is the whole request pipeline: the decorator dependencies run
first (the `RoleAccess` gate, then — for the list route — the rate limiter),
path-parameter validation (`Path(ge=1)`) runs next, and only then does the
handler body touch the store. -/

/-- `GET /clients/` (`get_clients` route): role gate, rate limiter
(`times=2, seconds=5`), then return all clients. -/
def get_clients_route (r : Role) (callsInWindow : Nat) (db : Store) :
    Outcome (List ClientRec) :=
  if roleAccess allowed_operation_get r = false then
    ⟨.error .forbidden, db, false⟩
  else if rateLimiterAllows callsInWindow = false then
    ⟨.error .throttled, db, false⟩
  else
    ⟨.ok (200, get_clients db), db, true⟩

/-- The selection predicate of the birthday route, exactly as written:
`extract(day, birthday) >= start.day AND extract(month, birthday) >= start.month
AND extract(day, birthday) <= end.day AND extract(month, birthday) <= end.month`. -/
def birthdayMatches (startDate endDate : MyDate) (b : MyDate) : Bool :=
  decide (startDate.day ≤ b.day) && decide (startDate.month ≤ b.month) &&
  decide (b.day ≤ endDate.day) && decide (b.month ≤ endDate.month)

/-- `GET /clients/birthday` (`get_clients_by_birth_date` route).  The query
parameters default to `date.today()` and `date.today() + timedelta(days=7)` —
both default expressions are evaluated once, when the module is imported, so
the defaults are fixed at `importToday`, not at the request's date. -/
def get_clients_by_birth_date_route (r : Role) (importToday : MyDate)
    (start_date end_date : Option MyDate) (db : Store) :
    Outcome (List ClientRec) :=
  if roleAccess allowed_operation_get r = false then
    ⟨.error .forbidden, db, false⟩
  else
    let s := start_date.getD importToday
    let e := end_date.getD (addDays importToday 7)
    ⟨.ok (200, db.filter (fun c => birthdayMatches s e c.birthday)), db, true⟩

/-- `GET /clients/{client_id}` (`get_client` route): role gate,
`Path(ge=1)` validation, lookup, 404 when absent. -/
def get_client_route (r : Role) (client_id : Int) (db : Store) :
    Outcome ClientRec :=
  if roleAccess allowed_operation_get r = false then
    ⟨.error .forbidden, db, false⟩
  else if client_id < 1 then
    ⟨.error .validation, db, false⟩
  else
    match get_client_by_id client_id db with
    | none => ⟨.error .notFound, db, true⟩
    | some c => ⟨.ok (200, c), db, true⟩

/-- `POST /clients/` (`create_client` route): role gate, then the explicit
email-uniqueness precondition (`get_client_by_email`; 409 when a client with
that email exists), then `create`, returning 201 with the new row. -/
def create_client_route (r : Role) (body : ClientModel) (db : Store) (now : Nat) :
    Outcome ClientRec :=
  if roleAccess allowed_operation_create r = false then
    ⟨.error .forbidden, db, false⟩
  else
    match get_client_by_email body.email db with
    | some _ => ⟨.error .conflict, db, true⟩
    | none =>
        match create body db now with
        | .error _ => ⟨.error .storeFailure, db, true⟩
        | .ok (c, db2) => ⟨.ok (201, c), db2, true⟩

/-- `PUT /clients/{client_id}` (`update_client` route): role gate
(admin, moderator), `Path(ge=1)` validation, then `update`; `None` becomes
404, an unhandled store error propagates as a generic failure. -/
def update_client_route (r : Role) (client_id : Int) (body : ClientModel)
    (db : Store) (now : Nat) : Outcome ClientRec :=
  if roleAccess allowed_operation_update r = false then
    ⟨.error .forbidden, db, false⟩
  else if client_id < 1 then
    ⟨.error .validation, db, false⟩
  else
    match update client_id body db now with
    | .error _ => ⟨.error .storeFailure, db, true⟩
    | .ok (none, db2) => ⟨.error .notFound, db2, true⟩
    | .ok (some c, db2) => ⟨.ok (200, c), db2, true⟩

/-- `DELETE /clients/{client_id}` (`remove_client` route): role gate (admin
only), `Path(ge=1)` validation, then `remove`; `None` becomes 404, success is
204 with the removed row's last known values. -/
def remove_client_route (r : Role) (client_id : Int) (db : Store) :
    Outcome ClientRec :=
  if roleAccess allowed_operation_remove r = false then
    ⟨.error .forbidden, db, false⟩
  else if client_id < 1 then
    ⟨.error .validation, db, false⟩
  else
    match remove client_id db with
    | (none, db2) => ⟨.error .notFound, db2, true⟩
    | (some c, db2) => ⟨.ok (204, c), db2, true⟩

/-! ## A uniform view of the six operations -/

/-- The six client operations exposed under `/clients`. -/
inductive Op
  | list
  | birthday
  | getById
  | create
  | update
  | delete
deriving DecidableEq, Repr

/-- The allowed-role set each route's `RoleAccess` dependency is configured
with (`routes/clients.py`, lines 18-21 and the decorators). -/
def opAllowedRoles : Op → List Role
  | .list => allowed_operation_get
  | .birthday => allowed_operation_get
  | .getById => allowed_operation_get
  | .create => allowed_operation_create
  | .update => allowed_operation_update
  | .delete => allowed_operation_remove

/-- Which routes carry the `RateLimiter` dependency: only the unfiltered
list route does. -/
def opHasRateLimiter : Op → Bool
  | .list => true
  | _ => false

/-- All inputs any of the six routes consumes, bundled so the operations can
be invoked uniformly. -/
structure Args where
  client_id : Int
  body : ClientModel
  start_date : Option MyDate
  end_date : Option MyDate
  importToday : MyDate
  callsInWindow : Nat
  now : Nat

/-- A route's success payload: one record or a list of records. -/
inductive Payload
  | one (c : ClientRec)
  | many (l : List ClientRec)
deriving DecidableEq, Repr

/-- Wrap a single-record outcome into the uniform payload. -/
def Outcome.asOne (o : Outcome ClientRec) : Outcome Payload :=
  ⟨o.result.map (fun p => (p.1, .one p.2)), o.store, o.storeAccessed⟩

/-- Wrap a record-list outcome into the uniform payload. -/
def Outcome.asMany (o : Outcome (List ClientRec)) : Outcome Payload :=
  ⟨o.result.map (fun p => (p.1, .many p.2)), o.store, o.storeAccessed⟩

/-- Invoke one operation with the given caller role, arguments and store. -/
def runOp : Op → Role → Args → Store → Outcome Payload
  | .list, r, a, db => (get_clients_route r a.callsInWindow db).asMany
  | .birthday, r, a, db =>
      (get_clients_by_birth_date_route r a.importToday a.start_date a.end_date db).asMany
  | .getById, r, a, db => (get_client_route r a.client_id db).asOne
  | .create, r, a, db => (create_client_route r a.body db a.now).asOne
  | .update, r, a, db => (update_client_route r a.client_id a.body db a.now).asOne
  | .delete, r, a, db => (remove_client_route r a.client_id db).asOne

/-! ## Sample data for concrete instantiations -/

/-- A sample request payload. -/
def sampleBody : ClientModel :=
  ⟨"Ann", "Lee", "ann@example.com", "111-111", ⟨1990, 7, 8⟩, "friend"⟩

/-- A sample stored client row with id 1. -/
def sampleClient : ClientRec :=
  ⟨1, "Bob", "Kay", "bob@example.com", "222-222", ⟨1985, 7, 3⟩, "colleague", 1, 1⟩

/-- A second sample stored client row with id 2 and a distinct email. -/
def sampleClient2 : ClientRec :=
  ⟨2, "Cid", "Roe", "cid@example.com", "333-333", ⟨1991, 1, 5⟩, "vendor", 2, 2⟩

/-- A payload whose email collides with `sampleClient`. -/
def dupEmailBody : ClientModel :=
  ⟨"Dup", "Licate", "bob@example.com", "444-444", ⟨2000, 1, 1⟩, "dup"⟩

/-- A payload whose email collides with `sampleClient2`. -/
def collideBody2 : ClientModel :=
  ⟨"Eve", "Fox", "cid@example.com", "555-555", ⟨1999, 2, 2⟩, "collide"⟩

/-- Sample bundled arguments. -/
def sampleArgs : Args :=
  ⟨1, sampleBody, none, none, ⟨2023, 7, 7⟩, 0, 10⟩

/-- A client whose birthday (1990-07-08) falls inside the import-day default
window of 2023-07-07. -/
def julyClient : ClientRec :=
  ⟨3, "Gil", "Hou", "gil@example.com", "666-666", ⟨1990, 7, 8⟩, "july", 3, 3⟩

/-! ## Theorems -/

/-- C1: for every client operation and every caller role outside that
operation's allowed-role set — {admin, moderator, user} for list, get-by-id,
birthday query and create, {admin, moderator} for update, {admin} for
delete — the invocation yields Forbidden, leaves the store unchanged, and
never touches it. -/
theorem runOp_forbidden_of_role_not_allowed (op : Op) (r : Role) (a : Args)
    (db : Store) (h : r ∉ opAllowedRoles op) :
    (runOp op r a db).result = .error .forbidden ∧
    (runOp op r a db).store = db ∧
    (runOp op r a db).storeAccessed = false := by
  cases op <;> cases r <;>
    first
      | exact absurd (by decide) h
      | exact ⟨rfl, rfl, rfl⟩

/-- Witness for C1: a user-role caller invoking delete is refused. -/
theorem runOp_forbidden_witness :
    (runOp Op.delete Role.user sampleArgs [sampleClient]).result =
      .error .forbidden ∧
    (runOp Op.delete Role.user sampleArgs [sampleClient]).store =
      [sampleClient] ∧
    (runOp Op.delete Role.user sampleArgs [sampleClient]).storeAccessed =
      false :=
  runOp_forbidden_of_role_not_allowed Op.delete Role.user sampleArgs
    [sampleClient] (by decide)

/-- C2: the birthday-window query returns exactly the stored clients whose
birthday satisfies `day(b) ≥ day(start) ∧ month(b) ≥ month(start) ∧
day(b) ≤ day(end) ∧ month(b) ≤ month(end)`, each component compared
independently of year. -/
theorem birthday_query_mem_iff (r : Role) (imp s e : MyDate) (db : Store)
    (c : ClientRec) (h : roleAccess allowed_operation_get r = true) :
    (get_clients_by_birth_date_route r imp (some s) (some e) db).result =
      .ok (200, db.filter (fun x => birthdayMatches s e x.birthday)) ∧
    (c ∈ db.filter (fun x => birthdayMatches s e x.birthday) ↔
      c ∈ db ∧ s.day ≤ c.birthday.day ∧ s.month ≤ c.birthday.month ∧
        c.birthday.day ≤ e.day ∧ c.birthday.month ≤ e.month) := by
  constructor
  · simp [get_clients_by_birth_date_route, h]
  · simp [List.mem_filter, birthdayMatches, and_assoc]

/-- Witness for C2, at the spec's §8 example window 2020-01-01..2020-01-08:
`sampleClient2` (birthday January 5) is returned, and the membership rule
holds for it. -/
theorem birthday_query_mem_iff_witness :
    (get_clients_by_birth_date_route Role.user ⟨2023, 7, 7⟩
        (some ⟨2020, 1, 1⟩) (some ⟨2020, 1, 8⟩)
        [sampleClient, sampleClient2]).result =
      .ok (200, [sampleClient, sampleClient2].filter
        (fun x => birthdayMatches ⟨2020, 1, 1⟩ ⟨2020, 1, 8⟩ x.birthday)) ∧
    (sampleClient2 ∈ [sampleClient, sampleClient2].filter
        (fun x => birthdayMatches ⟨2020, 1, 1⟩ ⟨2020, 1, 8⟩ x.birthday) ↔
      sampleClient2 ∈ [sampleClient, sampleClient2] ∧
        (1 : Nat) ≤ sampleClient2.birthday.day ∧
        (1 : Nat) ≤ sampleClient2.birthday.month ∧
        sampleClient2.birthday.day ≤ 8 ∧ sampleClient2.birthday.month ≤ 1) :=
  birthday_query_mem_iff Role.user ⟨2023, 7, 7⟩ ⟨2020, 1, 1⟩ ⟨2020, 1, 8⟩
    [sampleClient, sampleClient2] sampleClient2 (by decide)

/-- Counterexample to C3: with `sampleClient` (email `bob@example.com`)
stored, creating a client with that same email IS rejected by this layer
with Conflict and adds nothing — the route does perform an email-uniqueness
precondition check — and the model does declare a unique constraint on the
client email column. -/
theorem create_dup_email_rejected_cex :
    (create_client_route Role.user dupEmailBody [sampleClient] 5).result =
      .error .conflict ∧
    (create_client_route Role.user dupEmailBody [sampleClient] 5).store =
      [sampleClient] ∧
    clientEmailUniqueConstraint = true := by
  refine ⟨rfl, rfl, rfl⟩

/-- C3 as amended: the create operation does perform an email-uniqueness
precondition check (Conflict, no insertion, whenever some stored client
already holds the payload email), and the store declares unique email
constraints for Client as well as User. -/
theorem create_checks_email_uniqueness (r : Role) (body : ClientModel)
    (db : Store) (now : Nat)
    (h : roleAccess allowed_operation_create r = true)
    (hdup : ∃ c ∈ db, c.email = body.email) :
    (create_client_route r body db now).result = .error .conflict ∧
    (create_client_route r body db now).store = db ∧
    clientEmailUniqueConstraint = true ∧
    userEmailUniqueConstraint = true := by
  have hsome : (db.find? (fun c => c.email == body.email)).isSome = true := by
    rw [List.find?_isSome]
    obtain ⟨c, hc, he⟩ := hdup
    exact ⟨c, hc, by simp [he]⟩
  obtain ⟨c, hc⟩ := Option.isSome_iff_exists.mp hsome
  refine ⟨?_, ?_, rfl, rfl⟩ <;>
    simp [create_client_route, h, get_client_by_email, hc]

/-- Witness for C3's amended statement. -/
theorem create_checks_email_uniqueness_witness :
    (create_client_route Role.user dupEmailBody [sampleClient] 5).result =
      .error .conflict ∧
    (create_client_route Role.user dupEmailBody [sampleClient] 5).store =
      [sampleClient] ∧
    clientEmailUniqueConstraint = true ∧
    userEmailUniqueConstraint = true :=
  create_checks_email_uniqueness Role.user dupEmailBody [sampleClient] 5
    (by decide) ⟨sampleClient, by decide, by decide⟩

/-- C4: create fails with Conflict (409) and adds nothing when some stored
client already has the payload email; otherwise it succeeds with 201,
appends exactly one new row, and returns that row, which carries the payload
fields, a fresh id and both timestamps set to the operation time. -/
theorem create_conflict_or_created (r : Role) (body : ClientModel)
    (db : Store) (now : Nat)
    (h : roleAccess allowed_operation_create r = true) :
    ((∃ c ∈ db, c.email = body.email) →
      (create_client_route r body db now).result = .error .conflict ∧
      (create_client_route r body db now).store = db) ∧
    ((∀ c ∈ db, c.email ≠ body.email) →
      (create_client_route r body db now).result =
        .ok (201, newClient body db now) ∧
      (create_client_route r body db now).store =
        db ++ [newClient body db now] ∧
      (newClient body db now).first_name = body.first_name ∧
      (newClient body db now).last_name = body.last_name ∧
      (newClient body db now).email = body.email ∧
      (newClient body db now).mobile = body.mobile ∧
      (newClient body db now).birthday = body.birthday ∧
      (newClient body db now).add_info = body.add_info ∧
      (newClient body db now).created_at = now ∧
      (newClient body db now).updated_at = now) := by
  constructor
  · intro hdup
    have hsome : (db.find? (fun c => c.email == body.email)).isSome = true := by
      rw [List.find?_isSome]
      obtain ⟨c, hc, he⟩ := hdup
      exact ⟨c, hc, by simp [he]⟩
    obtain ⟨c, hc⟩ := Option.isSome_iff_exists.mp hsome
    constructor <;> simp [create_client_route, h, get_client_by_email, hc]
  · intro hfresh
    have hnone : db.find? (fun c => c.email == body.email) = none := by
      rw [List.find?_eq_none]
      intro c hc
      simp [hfresh c hc]
    have hany : db.any (fun c => c.email == body.email) = false := by
      rw [List.any_eq_false]
      intro c hc
      simp [hfresh c hc]
    refine ⟨?_, ?_, rfl, rfl, rfl, rfl, rfl, rfl, rfl, rfl⟩ <;>
      simp [create_client_route, h, get_client_by_email, hnone, create, hany]

/-- Witness for C4: both branches at concrete stores — duplicate email is a
Conflict, a fresh email is created with 201. -/
theorem create_conflict_or_created_witness :
    ((∃ c ∈ [sampleClient], c.email = dupEmailBody.email) →
      (create_client_route Role.user dupEmailBody [sampleClient] 5).result =
        .error .conflict ∧
      (create_client_route Role.user dupEmailBody [sampleClient] 5).store =
        [sampleClient]) ∧
    ((∀ c ∈ [sampleClient], c.email ≠ dupEmailBody.email) →
      (create_client_route Role.user dupEmailBody [sampleClient] 5).result =
        .ok (201, newClient dupEmailBody [sampleClient] 5) ∧
      (create_client_route Role.user dupEmailBody [sampleClient] 5).store =
        [sampleClient] ++ [newClient dupEmailBody [sampleClient] 5] ∧
      (newClient dupEmailBody [sampleClient] 5).first_name =
        dupEmailBody.first_name ∧
      (newClient dupEmailBody [sampleClient] 5).last_name =
        dupEmailBody.last_name ∧
      (newClient dupEmailBody [sampleClient] 5).email = dupEmailBody.email ∧
      (newClient dupEmailBody [sampleClient] 5).mobile =
        dupEmailBody.mobile ∧
      (newClient dupEmailBody [sampleClient] 5).birthday =
        dupEmailBody.birthday ∧
      (newClient dupEmailBody [sampleClient] 5).add_info =
        dupEmailBody.add_info ∧
      (newClient dupEmailBody [sampleClient] 5).created_at = 5 ∧
      (newClient dupEmailBody [sampleClient] 5).updated_at = 5) :=
  create_conflict_or_created Role.user dupEmailBody [sampleClient] 5
    (by decide)

/-- Counterexample to C5: the record with id 1 exists, yet updating it with a
payload whose email belongs to the other stored client does not replace the
fields — the commit trips the unique email constraint, the route surfaces a
generic store failure, and the store is left untouched. -/
theorem update_existing_not_always_replaced_cex :
    get_client_by_id 1 [sampleClient, sampleClient2] = some sampleClient ∧
    (update_client_route Role.admin 1 collideBody2
        [sampleClient, sampleClient2] 9).result = .error .storeFailure ∧
    (update_client_route Role.admin 1 collideBody2
        [sampleClient, sampleClient2] 9).store = [sampleClient, sampleClient2] := by
  refine ⟨rfl, rfl, rfl⟩

/-- C5 as amended: for id ≥ 1, update fails with NotFound and performs no
write when no record has that id; when a record exists and no other stored
client holds the payload email, it replaces all six mutable fields exactly
as given, keeps id and creation time, and sets the last-update timestamp to
the operation time (a payload email held by a different stored client
instead trips the store's unique email constraint, leaving the store
unchanged). -/
theorem update_replaces_fields (r : Role) (cid : Int) (body : ClientModel)
    (db : Store) (now : Nat)
    (h : roleAccess allowed_operation_update r = true) (hid : 1 ≤ cid) :
    (get_client_by_id cid db = none →
      (update_client_route r cid body db now).result = .error .notFound ∧
      (update_client_route r cid body db now).store = db) ∧
    (∀ c, get_client_by_id cid db = some c →
      (∀ c2 ∈ db, c2.id ≠ cid → c2.email ≠ body.email) →
      (update_client_route r cid body db now).result =
        .ok (200, setFields body now c) ∧
      (update_client_route r cid body db now).store =
        replaceById cid (setFields body now) db ∧
      (setFields body now c).first_name = body.first_name ∧
      (setFields body now c).last_name = body.last_name ∧
      (setFields body now c).email = body.email ∧
      (setFields body now c).mobile = body.mobile ∧
      (setFields body now c).birthday = body.birthday ∧
      (setFields body now c).add_info = body.add_info ∧
      (setFields body now c).updated_at = now ∧
      (setFields body now c).id = c.id ∧
      (setFields body now c).created_at = c.created_at) := by
  have hnotlt : ¬cid < 1 := Int.not_lt.mpr hid
  constructor
  · intro hnone
    constructor <;> simp [update_client_route, h, hnotlt, update, hnone]
  · intro c hc hfree
    have hany : db.any
        (fun c2 => c2.id != cid && c2.email == body.email) = false := by
      rw [List.any_eq_false]
      intro c2 hc2
      by_cases hidc : c2.id = cid
      · simp [hidc]
      · simp [hidc, hfree c2 hc2 hidc]
    refine ⟨?_, ?_, rfl, rfl, rfl, rfl, rfl, rfl, rfl, rfl, rfl⟩ <;>
      simp [update_client_route, h, hnotlt, update, hc, hany]

/-- Witness for C5's amended statement: updating id 1 with `sampleBody`
(whose email collides with nobody) replaces the fields. -/
theorem update_replaces_fields_witness :
    (get_client_by_id 1 [sampleClient, sampleClient2] = none →
      (update_client_route Role.admin 1 sampleBody
          [sampleClient, sampleClient2] 9).result = .error .notFound ∧
      (update_client_route Role.admin 1 sampleBody
          [sampleClient, sampleClient2] 9).store =
        [sampleClient, sampleClient2]) ∧
    (∀ c, get_client_by_id 1 [sampleClient, sampleClient2] = some c →
      (∀ c2 ∈ [sampleClient, sampleClient2], c2.id ≠ 1 →
        c2.email ≠ sampleBody.email) →
      (update_client_route Role.admin 1 sampleBody
          [sampleClient, sampleClient2] 9).result =
        .ok (200, setFields sampleBody 9 c) ∧
      (update_client_route Role.admin 1 sampleBody
          [sampleClient, sampleClient2] 9).store =
        replaceById 1 (setFields sampleBody 9) [sampleClient, sampleClient2] ∧
      (setFields sampleBody 9 c).first_name = sampleBody.first_name ∧
      (setFields sampleBody 9 c).last_name = sampleBody.last_name ∧
      (setFields sampleBody 9 c).email = sampleBody.email ∧
      (setFields sampleBody 9 c).mobile = sampleBody.mobile ∧
      (setFields sampleBody 9 c).birthday = sampleBody.birthday ∧
      (setFields sampleBody 9 c).add_info = sampleBody.add_info ∧
      (setFields sampleBody 9 c).updated_at = 9 ∧
      (setFields sampleBody 9 c).id = c.id ∧
      (setFields sampleBody 9 c).created_at = c.created_at) :=
  update_replaces_fields Role.admin 1 sampleBody [sampleClient, sampleClient2]
    9 (by decide) (by decide)

/-- Under the primary-key invariant (no two rows share an id), looking a row
up by id after erasing the row with that id finds nothing. -/
theorem find?_id_eraseP_eq_none (cid : Int) (db : Store)
    (h : (db.map (fun c => c.id)).Nodup) :
    (db.eraseP (fun x => x.id == cid)).find? (fun x => x.id == cid) = none := by
  induction db with
  | nil => rfl
  | cons c rest ih =>
    rw [List.map_cons, List.nodup_cons] at h
    by_cases hc : c.id = cid
    · rw [List.eraseP_cons_of_pos (by simp [hc])]
      rw [List.find?_eq_none]
      intro x hx
      simp only [beq_iff_eq]
      intro hxid
      exact h.1 (by rw [hc, ← hxid]; exact List.mem_map_of_mem _ hx)
    · rw [List.eraseP_cons_of_neg (by simp [hc])]
      rw [List.find?_cons]
      have hb : (c.id == cid) = false := by simp [hc]
      rw [hb]
      exact ih h.2

/-- C6: for id ≥ 1, delete fails with NotFound and has no effect when no
record has that id; when a record exists (ids being unique, as the primary
key guarantees), it removes that record — a subsequent get-by-id on the same
id yields NotFound under every role — and returns the deleted record's last
known values. -/
theorem remove_deletes_record (r : Role) (cid : Int) (db : Store)
    (h : roleAccess allowed_operation_remove r = true) (hid : 1 ≤ cid)
    (hnd : (db.map (fun c => c.id)).Nodup) :
    (get_client_by_id cid db = none →
      (remove_client_route r cid db).result = .error .notFound ∧
      (remove_client_route r cid db).store = db) ∧
    (∀ c, get_client_by_id cid db = some c →
      (remove_client_route r cid db).result = .ok (204, c) ∧
      (remove_client_route r cid db).store =
        db.eraseP (fun x => x.id == cid) ∧
      (∀ r2, (get_client_route r2 cid
          ((remove_client_route r cid db).store)).result =
        .error .notFound)) := by
  have hnotlt : ¬cid < 1 := Int.not_lt.mpr hid
  constructor
  · intro hnone
    constructor <;> simp [remove_client_route, h, hnotlt, remove, hnone]
  · intro c hc
    have hstore : (remove_client_route r cid db).store =
        db.eraseP (fun x => x.id == cid) := by
      simp [remove_client_route, h, hnotlt, remove, hc]
    refine ⟨?_, hstore, ?_⟩
    · simp [remove_client_route, h, hnotlt, remove, hc]
    · intro r2
      rw [hstore]
      have hfind := find?_id_eraseP_eq_none cid db hnd
      cases r2 <;> simp [get_client_route, hnotlt, get_client_by_id,
        roleAccess, allowed_operation_get, hfind]

/-- Witness for C6: deleting id 1 from a two-row store removes it and a
subsequent lookup misses. -/
theorem remove_deletes_record_witness :
    (get_client_by_id 1 [sampleClient, sampleClient2] = none →
      (remove_client_route Role.admin 1 [sampleClient, sampleClient2]).result
          = .error .notFound ∧
      (remove_client_route Role.admin 1 [sampleClient, sampleClient2]).store
          = [sampleClient, sampleClient2]) ∧
    (∀ c, get_client_by_id 1 [sampleClient, sampleClient2] = some c →
      (remove_client_route Role.admin 1 [sampleClient, sampleClient2]).result
          = .ok (204, c) ∧
      (remove_client_route Role.admin 1 [sampleClient, sampleClient2]).store
          = [sampleClient, sampleClient2].eraseP (fun x => x.id == 1) ∧
      (∀ r2, (get_client_route r2 1
          ((remove_client_route Role.admin 1
            [sampleClient, sampleClient2]).store)).result =
        .error .notFound)) :=
  remove_deletes_record Role.admin 1 [sampleClient, sampleClient2]
    (by decide) (by decide) (by decide)

/-- C7: an identifier below 1 fails `Path(ge=1)` validation on get-by-id,
update and delete before the store is touched; for id ≥ 1, get-by-id returns
the stored record with that id, and fails with NotFound exactly when no
record has it. -/
theorem id_validation_and_get_by_id (r1 r2 r3 : Role) (cid : Int)
    (body : ClientModel) (db : Store) (now : Nat)
    (h1 : roleAccess allowed_operation_get r1 = true)
    (h2 : roleAccess allowed_operation_update r2 = true)
    (h3 : roleAccess allowed_operation_remove r3 = true) :
    (cid < 1 →
      (get_client_route r1 cid db).result = .error .validation ∧
      (get_client_route r1 cid db).storeAccessed = false ∧
      (get_client_route r1 cid db).store = db ∧
      (update_client_route r2 cid body db now).result = .error .validation ∧
      (update_client_route r2 cid body db now).storeAccessed = false ∧
      (update_client_route r2 cid body db now).store = db ∧
      (remove_client_route r3 cid db).result = .error .validation ∧
      (remove_client_route r3 cid db).storeAccessed = false ∧
      (remove_client_route r3 cid db).store = db) ∧
    (1 ≤ cid →
      (∀ c, (get_client_route r1 cid db).result = .ok (200, c) ↔
        get_client_by_id cid db = some c) ∧
      ((get_client_route r1 cid db).result = .error .notFound ↔
        get_client_by_id cid db = none)) := by
  constructor
  · intro hlt
    refine ⟨?_, ?_, ?_, ?_, ?_, ?_, ?_, ?_, ?_⟩ <;>
      simp [get_client_route, update_client_route, remove_client_route,
        h1, h2, h3, hlt]
  · intro hid
    have hnotlt : ¬cid < 1 := Int.not_lt.mpr hid
    constructor
    · intro c
      cases hfind : get_client_by_id cid db with
      | none => simp [get_client_route, h1, hnotlt, hfind]
      | some c0 => simp [get_client_route, h1, hnotlt, hfind]
    · cases hfind : get_client_by_id cid db with
      | none => simp [get_client_route, h1, hnotlt, hfind]
      | some c0 => simp [get_client_route, h1, hnotlt, hfind]

/-- Witness for C7: id 0 fails validation without store access, and for
id 1 the lookup equivalences hold, on a one-row store. -/
theorem id_validation_and_get_by_id_witness :
    (((0 : Int) < 1 →
      (get_client_route Role.user 0 [sampleClient]).result =
        .error .validation ∧
      (get_client_route Role.user 0 [sampleClient]).storeAccessed = false ∧
      (get_client_route Role.user 0 [sampleClient]).store = [sampleClient] ∧
      (update_client_route Role.moderator 0 sampleBody
          [sampleClient] 7).result = .error .validation ∧
      (update_client_route Role.moderator 0 sampleBody
          [sampleClient] 7).storeAccessed = false ∧
      (update_client_route Role.moderator 0 sampleBody
          [sampleClient] 7).store = [sampleClient] ∧
      (remove_client_route Role.admin 0 [sampleClient]).result =
        .error .validation ∧
      (remove_client_route Role.admin 0 [sampleClient]).storeAccessed =
        false ∧
      (remove_client_route Role.admin 0 [sampleClient]).store =
        [sampleClient]) ∧
    ((1 : Int) ≤ 0 →
      (∀ c, (get_client_route Role.user 0 [sampleClient]).result =
          .ok (200, c) ↔
        get_client_by_id 0 [sampleClient] = some c) ∧
      ((get_client_route Role.user 0 [sampleClient]).result =
          .error .notFound ↔
        get_client_by_id 0 [sampleClient] = none))) ∧
    (((1 : Int) < 1 →
      (get_client_route Role.user 1 [sampleClient]).result =
        .error .validation ∧
      (get_client_route Role.user 1 [sampleClient]).storeAccessed = false ∧
      (get_client_route Role.user 1 [sampleClient]).store = [sampleClient] ∧
      (update_client_route Role.moderator 1 sampleBody
          [sampleClient] 7).result = .error .validation ∧
      (update_client_route Role.moderator 1 sampleBody
          [sampleClient] 7).storeAccessed = false ∧
      (update_client_route Role.moderator 1 sampleBody
          [sampleClient] 7).store = [sampleClient] ∧
      (remove_client_route Role.admin 1 [sampleClient]).result =
        .error .validation ∧
      (remove_client_route Role.admin 1 [sampleClient]).storeAccessed =
        false ∧
      (remove_client_route Role.admin 1 [sampleClient]).store =
        [sampleClient]) ∧
    ((1 : Int) ≤ 1 →
      (∀ c, (get_client_route Role.user 1 [sampleClient]).result =
          .ok (200, c) ↔
        get_client_by_id 1 [sampleClient] = some c) ∧
      ((get_client_route Role.user 1 [sampleClient]).result =
          .error .notFound ↔
        get_client_by_id 1 [sampleClient] = none))) :=
  ⟨id_validation_and_get_by_id Role.user Role.moderator Role.admin 0
      sampleBody [sampleClient] 7 (by decide) (by decide) (by decide),
    id_validation_and_get_by_id Role.user Role.moderator Role.admin 1
      sampleBody [sampleClient] 7 (by decide) (by decide) (by decide)⟩

/-- C8 (code evaluated at the failing input): the birthday route's omitted
parameters default to the module-import date, not the request's current
date.  With both parameters omitted, the route behaves exactly as if
`start_date = importToday` and `end_date = importToday + 7 days` had been
passed; at the concrete failing input — application imported 2023-07-07, a
request on 2023-07-09 with both parameters omitted, and a stored client with
birthday July 8 — the code returns the client, whereas defaults taken from
the request date 2023-07-09 would return nothing. -/
theorem birthday_defaults_are_import_time :
    (∀ (r : Role) (imp : MyDate) (db : Store),
      get_clients_by_birth_date_route r imp none none db =
      get_clients_by_birth_date_route r imp (some imp)
        (some (addDays imp 7)) db) ∧
    (get_clients_by_birth_date_route Role.user ⟨2023, 7, 7⟩ none none
        [julyClient]).result = .ok (200, [julyClient]) ∧
    (get_clients_by_birth_date_route Role.user ⟨2023, 7, 7⟩
        (some ⟨2023, 7, 9⟩) (some (addDays ⟨2023, 7, 9⟩ 7))
        [julyClient]).result = .ok (200, []) ∧
    (⟨2023, 7, 7⟩ : MyDate) ≠ ⟨2023, 7, 9⟩ := by
  refine ⟨?_, rfl, rfl, by decide⟩
  intro r imp db
  cases r <;> rfl

/-- C9: the `RateLimiter(times=2, seconds=5)` dependency is attached to the
unfiltered list route and to no other client operation, and a list call
whose caller has exhausted the window's budget fails with Throttled before
any store access, leaving the store unchanged. -/
theorem rate_limit_only_on_list :
    (∀ op, opHasRateLimiter op = true ↔ op = Op.list) ∧
    rateLimiterTimes = 2 ∧
    rateLimiterSeconds = 5 ∧
    (∀ (r : Role) (n : Nat) (db : Store),
      roleAccess allowed_operation_get r = true →
      rateLimiterAllows n = false →
      (get_clients_route r n db).result = .error .throttled ∧
      (get_clients_route r n db).storeAccessed = false ∧
      (get_clients_route r n db).store = db) := by
  refine ⟨?_, rfl, rfl, ?_⟩
  · intro op
    cases op <;> simp [opHasRateLimiter]
  · intro r n db h hlim
    refine ⟨?_, ?_, ?_⟩ <;> simp [get_clients_route, h, hlim]

/-- Witness for C9: a third call inside the window is throttled without
store access. -/
theorem rate_limit_only_on_list_witness :
    (get_clients_route Role.user 2 [sampleClient]).result =
      .error .throttled ∧
    (get_clients_route Role.user 2 [sampleClient]).storeAccessed = false ∧
    (get_clients_route Role.user 2 [sampleClient]).store = [sampleClient] :=
  rate_limit_only_on_list.2.2.2 Role.user 2 [sampleClient]
    (by decide) (by decide)

/-- C10: the update route never yields Conflict — it performs no
email-uniqueness precondition of its own; when the target exists and a
different stored client already holds the payload email, the write is
rejected only by the store's unique constraint on the client email column,
surfacing as a generic store failure with the store unchanged. -/
theorem update_no_conflict_check :
    (∀ (r : Role) (cid : Int) (body : ClientModel) (db : Store) (now : Nat),
      (update_client_route r cid body db now).result ≠
        .error .conflict) ∧
    (∀ (r : Role) (cid : Int) (body : ClientModel) (db : Store) (now : Nat)
      (c c2 : ClientRec),
      roleAccess allowed_operation_update r = true → 1 ≤ cid →
      get_client_by_id cid db = some c →
      c2 ∈ db → c2.id ≠ cid → c2.email = body.email →
      (update_client_route r cid body db now).result =
        .error .storeFailure ∧
      (update_client_route r cid body db now).store = db) ∧
    clientEmailUniqueConstraint = true := by
  refine ⟨?_, ?_, rfl⟩
  · intro r cid body db now
    unfold update_client_route
    split
    · simp
    · split
      · simp
      · unfold update
        cases hfind : get_client_by_id cid db with
        | none => simp
        | some c =>
            simp only
            split <;> simp
  · intro r cid body db now c c2 h hid hfind hmem hne hemail
    have hnotlt : ¬cid < 1 := Int.not_lt.mpr hid
    have hany : db.any
        (fun x => x.id != cid && x.email == body.email) = true := by
      rw [List.any_eq_true]
      exact ⟨c2, hmem, by simp [hne, hemail]⟩
    constructor <;>
      simp [update_client_route, h, hnotlt, update, hfind, hany]

/-- Witness for C10: updating id 1 to the email of id 2 surfaces a generic
store failure, never a Conflict, and persists nothing. -/
theorem update_no_conflict_check_witness :
    (update_client_route Role.admin 1 collideBody2
        [sampleClient, sampleClient2] 9).result = .error .storeFailure ∧
    (update_client_route Role.admin 1 collideBody2
        [sampleClient, sampleClient2] 9).store =
      [sampleClient, sampleClient2] :=
  update_no_conflict_check.2.1 Role.admin 1 collideBody2
    [sampleClient, sampleClient2] 9 sampleClient sampleClient2
    (by decide) (by decide) (by decide) (by decide) (by decide) (by decide)

end ClientsApp
